import Mathlib

/-!
Shallow embedding of the sqlight typed SQL query builder: the expression
algebra of src/expr.ts (literals, operators, nullability and type inference,
SQL rendering with grouping) and the schema/select builders of schema.ts
(SELECT clause assembly, joins, LIMIT/OFFSET, INSERT emission, scalar
subqueries).  JavaScript numbers, dates and buffers are modelled by their
observable attributes (integer-ness, truthiness, and their String/toISOString/
hex renderings); exceptions are modelled with Except/Option.
-/

/-- SQL data types, the closed enumeration from types.ts. -/
inductive SqlType where
  | TEXT
  | VARCHAR
  | INTEGER
  | REAL
  | BOOLEAN
  | TIMESTAMP
  | BLOB
deriving DecidableEq, Repr

/-- Model of a JavaScript number by its observable attributes: the result of
Number.isInteger, its truthiness (nonzero and not NaN), and its String(x)
rendering. -/
structure JsNumber where
  isInt : Bool
  truthy : Bool
  render : String
deriving DecidableEq, Repr

/-- Native JavaScript values that can reach the EXPR factory.  A Date is
modelled by its toISOString rendering, a Buffer by its toString("hex")
rendering; the object constructor stands for every unsupported input
(object, array, undefined). -/
inductive JsValue where
  | str (s : String)
  | num (n : JsNumber)
  | boolean (b : Bool)
  | date (isoString : String)
  | buffer (hexString : String)
  | object
deriving DecidableEq, Repr

/-- JavaScript truthiness of a native value. -/
def JsValue.truthy : JsValue → Bool
  | .str s => s ≠ ""
  | .num n => n.truthy
  | .boolean b => b
  | .date _ => true
  | .buffer _ => true
  | .object => true

/-- Error kinds named by the spec; the source throws generic Error objects at
exactly these sites (EXPR on an unsupported value, the assertIs* type
assertions, and asSubquery on an unknown alias). -/
inductive SqlError where
  | invalidLiteral
  | typeMismatch
  | missingProjection
deriving DecidableEq, Repr

mutual
/-- The SqlExpression class hierarchy of expr.ts as one tree.  Each
constructor is one concrete subclass; SqlCase is split into caseOp (no ELSE)
and caseElseOp (with ELSE) to avoid a nested Option.  numLit covers
SqlLiteral as built by INT/FLOAT and stores the String(value) rendering;
the type and canBeNull fields of the classes are recovered by the
SqlExpression.type and SqlExpression.canBeNull functions below. -/
inductive SqlExpression where
  | numLit (ty : SqlType) (render : String)
  | booleanLit (value : Bool)
  | stringLit (value : String)
  | dateLit (isoString : String)
  | bufferLit (hexString : String)
  | nullLit (ty : SqlType)
  | column (tableAlias : String) (columnName : String) (ty : SqlType) (nullable : Bool)
  | isNullOp (ex : SqlExpression)
  | isNotNullOp (ex : SqlExpression)
  | unaryOp (ty : SqlType) (pre : String) (x : SqlExpression) (suf : String)
  | multiOp (ty : SqlType) (op : String) (list : SqlExprList) (canBeNullOverride : Option Bool)
  | multiFun (ty : SqlType) (op : String) (list : SqlExprList) (canBeNullOverride : Option Bool)
  | inListOp (ex : SqlExpression) (list : SqlExprList)
  | inSubqueryOp (ex : SqlExpression) (sub : SqlExpression)
  | caseOp (ty : SqlType) (whenList : SqlWhenList)
  | caseElseOp (ty : SqlType) (whenList : SqlWhenList) (elseExpr : SqlExpression)
  | subquery (ty : SqlType) (sql : String)
deriving DecidableEq, Repr

/-- A list of expressions (the operand list of a multi-ary operator). -/
inductive SqlExprList where
  | nil
  | cons (head : SqlExpression) (tail : SqlExprList)
deriving DecidableEq, Repr

/-- A list of WHEN/THEN pairs of a CASE expression. -/
inductive SqlWhenList where
  | nil
  | cons (whenExpr : SqlExpression) (thenExpr : SqlExpression) (tail : SqlWhenList)
deriving DecidableEq, Repr
end

/-- Number of operands of a multi-ary operator. -/
def SqlExprList.length : SqlExprList → Nat
  | .nil => 0
  | .cons _ tail => 1 + tail.length

/-- Conversion from a Lean list. -/
def SqlExprList.ofList : List SqlExpression → SqlExprList
  | [] => .nil
  | e :: rest => .cons e (ofList rest)

/-- Conversion to a Lean list. -/
def SqlExprList.toList : SqlExprList → List SqlExpression
  | .nil => []
  | .cons e rest => e :: rest.toList

/-- The when/then pairs as a Lean list. -/
def SqlWhenList.ofList : List (SqlExpression × SqlExpression) → SqlWhenList
  | [] => .nil
  | p :: rest => .cons p.1 p.2 (ofList rest)

/-- Doubling of single quotes, character by character. -/
def sqlEscapeChars : List Char → List Char
  | [] => []
  | c :: rest =>
    if c = '\x27' then '\x27' :: '\x27' :: sqlEscapeChars rest
    else c :: sqlEscapeChars rest

/-- Escaping used by SqlStringLiteral.toSql: each single quote in the content
is doubled, and the result is wrapped in single quotes by the caller. -/
def sqlEscape (s : String) : String :=
  String.mk (sqlEscapeChars s.data)

mutual
/-- SqlExpression.toSql(grouped) of expr.ts.  Each branch mirrors the toSql
method of the corresponding subclass. -/
def SqlExpression.toSql : SqlExpression → Bool → String
  | .numLit _ render, _ => render
  | .booleanLit value, _ => if value then "1" else "0"
  | .stringLit value, _ => "\x27" ++ sqlEscape value ++ "\x27"
  | .dateLit isoString, _ => isoString
  | .bufferLit hexString, _ => "x\x27" ++ hexString ++ "\x27"
  | .nullLit _, _ => "NULL"
  | .column tableAlias columnName _ _, _ => tableAlias ++ "." ++ columnName
  | .isNullOp ex, _ => ex.toSql true ++ " IS NULL"
  | .isNotNullOp ex, _ => ex.toSql true ++ " IS NOT NULL"
  | .unaryOp _ pre x suf, grouped =>
    let sql := pre ++ x.toSql false ++ suf
    if grouped then "(" ++ sql ++ ")" else sql
  | .multiOp _ op list _, grouped =>
    let groupInner := grouped || list.length > 1
    let groupOuter := grouped && list.length > 1
    let sql := SqlExprList.joinSql list groupInner op
    if groupOuter then "(" ++ sql ++ ")" else sql
  | .multiFun _ op list _, _ =>
    op ++ "(" ++ SqlExprList.joinSql list false "," ++ ")"
  | .inListOp ex list, grouped =>
    let sql := ex.toSql true ++ " " ++ ("IN" ++ "(" ++ SqlExprList.joinSql list false "," ++ ")")
    if grouped then "(" ++ sql ++ ")" else sql
  | .inSubqueryOp ex sub, grouped =>
    let sql := ex.toSql true ++ " IN " ++ sub.toSql true
    if grouped then "(" ++ sql ++ ")" else sql
  | .caseOp _ whenList, _ =>
    "CASE " ++ SqlWhenList.joinSql whenList ++ " END"
  | .caseElseOp _ whenList elseExpr, _ =>
    "CASE " ++ (SqlWhenList.joinSql whenList ++ " ELSE " ++ elseExpr.toSql false) ++ " END"
  | .subquery _ sql, _ => sql

/-- Rendering of an operand list joined by the operator text, as in
list.map(e => e.toSql(grouped)).join(op). -/
def SqlExprList.joinSql : SqlExprList → Bool → String → String
  | .nil, _, _ => ""
  | .cons e .nil, grouped, _ => e.toSql grouped
  | .cons e rest, grouped, op => e.toSql grouped ++ op ++ SqlExprList.joinSql rest grouped op

/-- Rendering of the WHEN/THEN pairs of a CASE, joined by single spaces. -/
def SqlWhenList.joinSql : SqlWhenList → String
  | .nil => ""
  | .cons whenExpr thenExpr .nil =>
    "WHEN " ++ whenExpr.toSql false ++ " THEN " ++ thenExpr.toSql false
  | .cons whenExpr thenExpr rest =>
    "WHEN " ++ whenExpr.toSql false ++ " THEN " ++ thenExpr.toSql false ++ " " ++
      SqlWhenList.joinSql rest
end

/-- The declared SQL type (the type field set by each subclass constructor). -/
def SqlExpression.type : SqlExpression → SqlType
  | .numLit ty _ => ty
  | .booleanLit _ => .BOOLEAN
  | .stringLit _ => .TEXT
  | .dateLit _ => .TIMESTAMP
  | .bufferLit _ => .BLOB
  | .nullLit ty => ty
  | .column _ _ ty _ => ty
  | .isNullOp _ => .BOOLEAN
  | .isNotNullOp _ => .BOOLEAN
  | .unaryOp ty _ _ _ => ty
  | .multiOp ty _ _ _ => ty
  | .multiFun ty _ _ _ => ty
  | .inListOp _ _ => .BOOLEAN
  | .inSubqueryOp _ _ => .BOOLEAN
  | .caseOp ty _ => ty
  | .caseElseOp ty _ _ => ty
  | .subquery ty _ => ty

mutual
/-- The canBeNull field set by each subclass constructor: literals are
never-null, typed NULL is nullable, columns inherit the schema flag, a
multi-ary operator takes its override if given and otherwise is nullable iff
some operand is, CASE without ELSE is nullable, CASE with ELSE is nullable
iff some THEN value or the ELSE is, and a scalar subquery is nullable. -/
def SqlExpression.canBeNull : SqlExpression → Bool
  | .numLit _ _ => false
  | .booleanLit _ => false
  | .stringLit _ => false
  | .dateLit _ => false
  | .bufferLit _ => false
  | .nullLit _ => true
  | .column _ _ _ nullable => nullable
  | .isNullOp _ => false
  | .isNotNullOp _ => false
  | .unaryOp _ _ x _ => x.canBeNull
  | .multiOp _ _ list override => override.getD (SqlExprList.anyCanBeNull list)
  | .multiFun _ _ list override => override.getD (SqlExprList.anyCanBeNull list)
  | .inListOp _ _ => false
  | .inSubqueryOp _ _ => false
  | .caseOp _ _ => true
  | .caseElseOp _ whenList elseExpr =>
    SqlWhenList.anyThenCanBeNull whenList || elseExpr.canBeNull
  | .subquery _ _ => true

/-- Whether some operand in the list can be null. -/
def SqlExprList.anyCanBeNull : SqlExprList → Bool
  | .nil => false
  | .cons e rest => e.canBeNull || SqlExprList.anyCanBeNull rest

/-- Whether some THEN value in the when-list can be null. -/
def SqlWhenList.anyThenCanBeNull : SqlWhenList → Bool
  | .nil => false
  | .cons _ thenExpr rest => thenExpr.canBeNull || SqlWhenList.anyThenCanBeNull rest
end

/-- The BOOL literal factory (SqlBooleanLiteral stores 1 or 0). -/
def BOOL (b : Bool) : SqlExpression := .booleanLit b

/-- The STR literal factory. -/
def STR (s : String) : SqlExpression := .stringLit s

/-- The INT literal factory: an INTEGER-typed SqlLiteral rendering String(x). -/
def INT (n : JsNumber) : SqlExpression := .numLit .INTEGER n.render

/-- The FLOAT literal factory: a REAL-typed SqlLiteral rendering String(x). -/
def FLOAT (n : JsNumber) : SqlExpression := .numLit .REAL n.render

/-- The DATE literal factory (SqlDateLiteral renders value.toISOString()). -/
def DATE (isoString : String) : SqlExpression := .dateLit isoString

/-- The BLOB literal factory (SqlBufferLiteral renders as hex). -/
def BLOBLit (hexString : String) : SqlExpression := .bufferLit hexString

/-- An input to EXPR: a supported native constant or an existing expression. -/
inductive SqlInputValue where
  | expr (e : SqlExpression)
  | native (v : JsValue)

/-- JavaScript truthiness of an input value (expression objects are truthy). -/
def SqlInputValue.truthy : SqlInputValue → Bool
  | .expr _ => true
  | .native v => v.truthy

/-- The EXPR factory of expr.ts: passes expressions through, converts
strings, numbers (integer-valued to INTEGER, otherwise REAL), booleans,
Dates and Buffers to literals, and throws on anything else. -/
def EXPR : SqlInputValue → Except SqlError SqlExpression
  | .expr e => .ok e
  | .native (.str s) => .ok (STR s)
  | .native (.num n) => .ok (if n.isInt then INT n else FLOAT n)
  | .native (.boolean b) => .ok (BOOL b)
  | .native (.date d) => .ok (DATE d)
  | .native (.buffer h) => .ok (BLOBLit h)
  | .native .object => .error .invalidLiteral

/-- EXPR over a list of inputs (the EXPRs helper). -/
def EXPRs (list : List SqlInputValue) : Except SqlError (List SqlExpression) :=
  list.mapM EXPR

/-- EXPR_UNDEF of expr.ts: the source tests the argument with JavaScript
truthiness (x ? EXPR(x) : undefined), so falsy native values such as 0,
false or the empty string are treated like a missing argument. -/
def EXPR_UNDEF : Option SqlInputValue → Except SqlError (Option SqlExpression)
  | none => .ok none
  | some x => if x.truthy then (EXPR x).map some else .ok none

/-- LITERAL(type, x) of expr.ts: null or undefined (here: none) becomes a
typed NULL literal; otherwise the value is wrapped per the requested type.
Combinations where the native value does not fit the requested type are
outside the typed API (the TypeScript signature forbids them) and are
modelled as none. -/
def LITERAL (ty : SqlType) (x : Option JsValue) : Option SqlExpression :=
  match x with
  | none => some (.nullLit ty)
  | some v =>
    match ty with
    | .BOOLEAN => some (BOOL v.truthy)
    | .TEXT | .VARCHAR =>
      match v with
      | .str s => some (STR s)
      | _ => none
    | .INTEGER =>
      match v with
      | .num n => some (INT n)
      | _ => none
    | .REAL =>
      match v with
      | .num n => some (FLOAT n)
      | _ => none
    | .TIMESTAMP =>
      match v with
      | .date d => some (DATE d)
      | _ => none
    | .BLOB =>
      match v with
      | .buffer h => some (BLOBLit h)
      | _ => none

/-- The AND free function: a BOOLEAN multi-operator joined by the padded
AND keyword, with no nullability override. -/
def AND (list : List SqlInputValue) : Except SqlError SqlExpression := do
  let es ← EXPRs list
  return .multiOp .BOOLEAN " AND " (.ofList es) none

/-- The OR free function. -/
def OR (list : List SqlInputValue) : Except SqlError SqlExpression := do
  let es ← EXPRs list
  return .multiOp .BOOLEAN " OR " (.ofList es) none

/-- The NOT free function: a unary operator with prefix NOT-and-open-paren
and suffix close-paren. -/
def NOT (x : SqlInputValue) : Except SqlError SqlExpression := do
  let e ← EXPR x
  return .unaryOp .BOOLEAN ("NOT" ++ " (") e ")"

/-- The SqlCoalesce constructor: takes the first operand type as the result
type and overrides nullability to "all operands nullable"; crashes (none)
on an empty list, as list[0].type would. -/
def mkSqlCoalesce : List SqlExpression → Option SqlExpression
  | [] => none
  | e :: rest =>
    some (.multiFun e.type "COALESCE" (.ofList (e :: rest))
      (some ((e :: rest).all SqlExpression.canBeNull)))

/-- The SqlCase constructor: the result type is the type of the first THEN
or ELSE value (the invariant in the source crashes when there is none, here
none), and the node keeps its when-list and optional ELSE. -/
def mkSqlCase (whens : List (SqlExpression × SqlExpression))
    (els : Option SqlExpression) : Option SqlExpression :=
  match whens.map Prod.snd ++ els.toList with
  | [] => none
  | v :: _ =>
    match els with
    | none => some (.caseOp v.type (.ofList whens))
    | some e => some (.caseElseOp v.type (.ofList whens) e)

/-- The CASE free function: coerces every THEN input with EXPR and the
optional ELSE input with EXPR_UNDEF, then builds a SqlCase. -/
def CASE (whenList : List (SqlExpression × SqlInputValue))
    (elseInput : Option SqlInputValue) : Except SqlError (Option SqlExpression) := do
  let whens ← whenList.mapM (fun p => do
    let t ← EXPR p.2
    return (p.1, t))
  let els ← EXPR_UNDEF elseInput
  return mkSqlCase whens els

/-- The assertIsBoolean method: returns the expression or throws. -/
def SqlExpression.assertIsBoolean (e : SqlExpression) : Except SqlError SqlExpression :=
  if e.type = .BOOLEAN then .ok e else .error .typeMismatch

/-- The assertIsText method: TEXT and VARCHAR are interchangeable. -/
def SqlExpression.assertIsText (e : SqlExpression) : Except SqlError SqlExpression :=
  if e.type = .TEXT ∨ e.type = .VARCHAR then .ok e else .error .typeMismatch

/-- The assertIsNumeric method: REAL or INTEGER. -/
def SqlExpression.assertIsNumeric (e : SqlExpression) : Except SqlError SqlExpression :=
  if e.type = .REAL ∨ e.type = .INTEGER then .ok e else .error .typeMismatch

/-- The eq method: a BOOLEAN multi-operator over receiver and coerced rhs,
with no type assertion on either side and no nullability override. -/
def SqlExpression.eq (e : SqlExpression) (rhs : SqlInputValue) :
    Except SqlError SqlExpression := do
  let r ← EXPR rhs
  return .multiOp .BOOLEAN "=" (.ofList [e, r]) none

/-- The ne method. -/
def SqlExpression.ne (e : SqlExpression) (rhs : SqlInputValue) :
    Except SqlError SqlExpression := do
  let r ← EXPR rhs
  return .multiOp .BOOLEAN "!=" (.ofList [e, r]) none

/-- The and method: asserts the receiver is BOOLEAN, then delegates to AND;
the right-hand side is only coerced with EXPR, never type-checked. -/
def SqlExpression.and (e : SqlExpression) (rhs : SqlInputValue) :
    Except SqlError SqlExpression := do
  let b ← e.assertIsBoolean
  AND [.expr b, rhs]

/-- The or method: same shape as the and method. -/
def SqlExpression.or (e : SqlExpression) (rhs : SqlInputValue) :
    Except SqlError SqlExpression := do
  let b ← e.assertIsBoolean
  OR [.expr b, rhs]

/-- The not method: asserts the receiver is BOOLEAN, then delegates to NOT. -/
def SqlExpression.not (e : SqlExpression) : Except SqlError SqlExpression := do
  let b ← e.assertIsBoolean
  NOT (.expr b)

/-- The SqlBinaryArithmeticOperator constructor: REAL if either operand is
REAL, otherwise INTEGER. -/
def mkBinaryArithmetic (op : String) (lhs rhs : SqlExpression) : SqlExpression :=
  .multiOp (if lhs.type = .REAL ∨ rhs.type = .REAL then .REAL else .INTEGER)
    op (.ofList [lhs, rhs]) none

/-- The add method: asserts the receiver numeric, coerces the rhs, applies
arithmetic promotion; the rhs type is never checked. -/
def SqlExpression.add (e : SqlExpression) (rhs : SqlInputValue) :
    Except SqlError SqlExpression := do
  let l ← e.assertIsNumeric
  let r ← EXPR rhs
  return mkBinaryArithmetic "+" l r

/-- The sub method. -/
def SqlExpression.sub (e : SqlExpression) (rhs : SqlInputValue) :
    Except SqlError SqlExpression := do
  let l ← e.assertIsNumeric
  let r ← EXPR rhs
  return mkBinaryArithmetic "-" l r

/-- The mul method. -/
def SqlExpression.mul (e : SqlExpression) (rhs : SqlInputValue) :
    Except SqlError SqlExpression := do
  let l ← e.assertIsNumeric
  let r ← EXPR rhs
  return mkBinaryArithmetic "*" l r

/-- The div method: always REAL, built directly as a multi-operator. -/
def SqlExpression.div (e : SqlExpression) (rhs : SqlInputValue) :
    Except SqlError SqlExpression := do
  let l ← e.assertIsNumeric
  let r ← EXPR rhs
  return .multiOp .REAL "/" (.ofList [l, r]) none

/-- Shared concrete JsNumber values for the examples and witnesses. -/
def jsZero : JsNumber := { isInt := true, truthy := false, render := "0" }

/-- The number one. -/
def jsOne : JsNumber := { isInt := true, truthy := true, render := "1" }

/-- The number 123. -/
def js123 : JsNumber := { isInt := true, truthy := true, render := "123" }

/-- The number 321. -/
def js321 : JsNumber := { isInt := true, truthy := true, render := "321" }

/-- Number.MAX_SAFE_INTEGER, the initial (sentinel) value of a select
builder's limit, meaning that no limit was set. -/
def maxSafeInteger : Nat := 9007199254740991

/-- A schema column declaration: the ty field models the declared SQL type,
with the optional nullable and pk flags defaulting to false. -/
structure SchemaColumn where
  ty : SqlType
  nullable : Bool := false
  pk : Bool := false
deriving DecidableEq, Repr

/-- A schema table: its columns in declaration order. -/
structure SchemaTable where
  columns : List (String × SchemaColumn)
deriving DecidableEq, Repr

/-- A schema database: its tables keyed by name. -/
structure SchemaDatabase where
  tables : List (String × SchemaTable)
deriving DecidableEq, Repr

/-- Lookup in an insertion-ordered string-keyed map (JS object or Map get). -/
def mapGet {α : Type} : List (String × α) → String → Option α
  | [], _ => none
  | (k, v) :: rest, key => if k = key then some v else mapGet rest key

/-- Insert-or-replace in an insertion-ordered string-keyed map: an existing
key keeps its original position (JS Map.set). -/
def mapSet {α : Type} : List (String × α) → String → α → List (String × α)
  | [], key, v => [(key, v)]
  | (k, v0) :: rest, key, v =>
    if k = key then (k, v) :: rest else (k, v0) :: mapSet rest key v

/-- SqlFromTable of schema.ts: a table reference under a local alias, whose
col map yields column-reference expressions. -/
structure SqlFromTable where
  tableName : String
  talias : String
  columns : List (String × SchemaColumn)
deriving DecidableEq, Repr

/-- Construction of a SqlFromTable from the schema (missing tables would
crash in the source; they yield an empty column map here and are outside
every claim). -/
def mkFromTable (db : SchemaDatabase) (talias tableName : String) : SqlFromTable :=
  { tableName := tableName, talias := talias,
    columns := ((mapGet db.tables tableName).map SchemaTable.columns).getD [] }

/-- The col map of a SqlFromTable: a SqlColumn expression whose type and
nullability come from the schema column. -/
def SqlFromTable.col (t : SqlFromTable) (name : String) : Option SqlExpression :=
  (mapGet t.columns name).map (fun c => .column t.talias name c.ty c.nullable)

/-- One entry of the join list of a select builder (the JoinedTable record
of schema.ts, with the table reference flattened to name and alias). -/
structure JoinedTable where
  tableName : String
  talias : String
  joinType : Option String
  joiner : Option SqlExpression
deriving DecidableEq, Repr

/-- Rendering of one join entry inside toSql: qualified with the join kind
and an ON predicate exactly when both joinType and joiner are present and
truthy, and a bare table-name-and-alias otherwise. -/
def renderJoin (j : JoinedTable) : String :=
  match j.joinType, j.joiner with
  | some jt, some p =>
    if jt ≠ "" then jt ++ " " ++ (j.tableName ++ " " ++ j.talias) ++ " ON " ++ p.toSql true
    else j.tableName ++ " " ++ j.talias
  | _, _ => j.tableName ++ " " ++ j.talias

/-- The SqlSelect builder state: projections in insertion order, the join
list, the WHERE conjuncts, the ORDER BY clauses, and limit/offset with
their initial values. -/
structure SqlSelect where
  schema : SchemaDatabase
  selectSql : List (String × SqlExpression) := []
  joins : List JoinedTable := []
  wheres : List SqlExpression := []
  orderBys : List (SqlExpression × String) := []
  limit : Nat := maxSafeInteger
  offset : Nat := 0
deriving DecidableEq, Repr

/-- The select method: sets or replaces the projection bound to the alias. -/
def SqlSelect.select (s : SqlSelect) (alias' : String) (sql : SqlInputValue) :
    Except SqlError SqlSelect := do
  let e ← EXPR sql
  return { s with selectSql := mapSet s.selectSql alias' e }

/-- The from method of SqlSelect (named fromTable here because from is a
Lean keyword): appends a join entry and returns it with the new table
reference.  The join predicate is built from the fresh table reference only
when a truthy joinType and a builder function are both present; nothing is
enforced about the position of the call. -/
def SqlSelect.fromTable (s : SqlSelect) (talias tableName : String)
    (joinType : Option String) (fJoin : Option (SqlFromTable → SqlExpression)) :
    SqlSelect × SqlFromTable :=
  let table := mkFromTable s.schema talias tableName
  let joiner : Option SqlExpression :=
    match joinType, fJoin with
    | some jt, some f => if jt ≠ "" then some (f table) else none
    | _, _ => none
  ({ s with joins := s.joins ++
      [{ tableName := tableName, talias := talias, joinType := joinType, joiner := joiner }] },
    table)

/-- The where method of SqlSelect (named whereClause here because where is
a Lean keyword): appends a conjunct. -/
def SqlSelect.whereClause (s : SqlSelect) (sql : SqlInputValue) :
    Except SqlError SqlSelect := do
  let e ← EXPR sql
  return { s with wheres := s.wheres ++ [e] }

/-- The setLimit method. -/
def SqlSelect.setLimit (s : SqlSelect) (n : Nat) : SqlSelect := { s with limit := n }

/-- The setOffset method. -/
def SqlSelect.setOffset (s : SqlSelect) (n : Nat) : SqlSelect := { s with offset := n }

/-- The orderBy method: appends a clause with its ASC or DESC keyword. -/
def SqlSelect.orderBy (s : SqlSelect) (sql : SqlInputValue) (ascending : String) :
    Except SqlError SqlSelect := do
  let e ← EXPR sql
  return { s with orderBys := s.orderBys ++ [(e, ascending)] }

/-- Array.join with a separator. -/
def joinStrings (sep : String) : List String → String
  | [] => ""
  | [x] => x
  | x :: xs => x ++ sep ++ joinStrings sep xs

/-- The LIMIT/OFFSET piece of toSql, reproducing the source exactly:
sqlLimit is empty when the limit still has its sentinel value, sqlOffset is
a leading-space OFFSET fragment when the offset is positive, and their
concatenation is pushed as one piece when either is nonempty. -/
def limitOffsetPieces (limit offset : Nat) : List String :=
  let sqlLimit := if limit < maxSafeInteger then "LIMIT " ++ toString limit else ""
  let sqlOffset := if 0 < offset then " OFFSET " ++ toString offset else ""
  if sqlLimit ≠ "" ∨ sqlOffset ≠ "" then [sqlLimit ++ sqlOffset] else []

/-- SqlSelect.toSql of schema.ts: the SELECT 1 sentinel with no projections;
otherwise the newline-joined present clauses. -/
def SqlSelect.toSql (s : SqlSelect) : String :=
  if s.selectSql.isEmpty then "SELECT 1"
  else
    let pieces : List String :=
      ["SELECT " ++ joinStrings ", "
          (s.selectSql.map (fun p => p.2.toSql false ++ " AS " ++ p.1))] ++
      ((if s.joins.isEmpty then []
        else ["FROM " ++ joinStrings " " (s.joins.map renderJoin)]) ++
       ((if s.wheres.isEmpty then []
         else ["WHERE " ++ (SqlExpression.multiOp .BOOLEAN " AND "
                (.ofList s.wheres) none).toSql false]) ++
        ((if s.orderBys.isEmpty then []
          else ["ORDER BY " ++ joinStrings ", "
                 (s.orderBys.map (fun c => c.1.toSql false ++ " " ++ c.2))]) ++
         limitOffsetPieces s.limit s.offset)))
    joinStrings "\n" pieces

/-- The asSubquery method: looks the alias up in the projection map, fails
like the source invariant when it is absent (the spec calls this
MissingProjection), and otherwise wraps the rendered SELECT in parentheses
as a SqlSubquery carrying the projection's type. -/
def SqlSelect.asSubquery (s : SqlSelect) (alias' : String) :
    Except SqlError SqlExpression :=
  match mapGet s.selectSql alias' with
  | none => .error .missingProjection
  | some e => .ok (.subquery e.type ("(" ++ s.toSql ++ ")"))

/-- A native row object for INSERT: field name to value, in the caller's
field order.  A pair with value none is a field explicitly set to null; a
name absent from the list is a missing field. -/
abbrev Row := List (String × Option JsValue)

/-- Reading row[name]: a missing field and an explicit null both reach the
literal factory as nothing. -/
def rowGet (row : Row) (name : String) : Option JsValue :=
  match mapGet row name with
  | none => none
  | some v => v

/-- RowFormatter.getSqlExpressions: one literal per schema column, in schema
column order, each produced by LITERAL from the row's value at that name. -/
def getSqlExpressions (columns : List (String × SchemaColumn)) (row : Row) :
    Option (List SqlExpression) :=
  columns.mapM (fun c => LITERAL c.2.ty (rowGet row c.1))

/-- RowFormatter.getColumnList: the schema column names in declared order. -/
def getColumnList (columns : List (String × SchemaColumn)) : List String :=
  columns.map Prod.fst

/-- One value tuple of the INSERT statement: the row's literals in schema
column order, each rendered ungrouped, joined by commas in parentheses. -/
def renderRow (columns : List (String × SchemaColumn)) (row : Row) : Option String := do
  let es ← getSqlExpressions columns row
  return "(" ++ joinStrings "," (es.map (fun e => e.toSql false)) ++ ")"

/-- SqlSchema.getInsertRowsSql: the empty string for missing, null or empty
rows; otherwise the INSERT statement whose column list and value tuples
follow schema order.  The rows argument is wrapped in Option to model the
Nullish case; the result is none only when the source would crash (unknown
table or a value that does not fit its column type). -/
def getInsertRowsSql (db : SchemaDatabase) (tableName : String)
    (rows : Option (List Row)) : Option String :=
  match rows with
  | none => some ""
  | some [] => some ""
  | some (r :: rs) =>
    match mapGet db.tables tableName with
    | none => none
    | some table => do
      let data ← (r :: rs).mapM (renderRow table.columns)
      return "INSERT INTO " ++ tableName ++ " " ++
        ("(" ++ joinStrings "," (getColumnList table.columns) ++ ")") ++
        " VALUES\n" ++ joinStrings ",\n" data

/-- The arguments of one from() call, for reasoning about call sequences. -/
structure FromCall where
  talias : String
  tableName : String
  joinType : Option String
  fJoin : Option (SqlFromTable → SqlExpression)

/-- A sequence of from() calls applied to a builder, keeping the builder. -/
def applyFroms : SqlSelect → List FromCall → SqlSelect
  | s, [] => s
  | s, c :: cs => applyFroms (s.fromTable c.talias c.tableName c.joinType c.fJoin).1 cs

/-- The join entry recorded for one from() call against a given schema. -/
def callEntry (db : SchemaDatabase) (c : FromCall) : JoinedTable :=
  { tableName := c.tableName, talias := c.talias, joinType := c.joinType,
    joiner :=
      match c.joinType, c.fJoin with
      | some jt, some f =>
        if jt ≠ "" then some (f (mkFromTable db c.talias c.tableName)) else none
      | _, _ => none }

/-- Whether an Except result is a success. -/
def exOk {α : Type} : Except SqlError α → Bool
  | .ok _ => true
  | .error _ => false

/-- Grouped rendering adds one pair of parentheses around the ungrouped
rendering. -/
def wrapsWhenGrouped (e : SqlExpression) : Prop :=
  e.toSql true = "(" ++ e.toSql false ++ ")"

/-- Grouped and ungrouped renderings coincide. -/
def ignoresGrouping (e : SqlExpression) : Prop :=
  e.toSql true = e.toSql false

/-- Number of WHEN/THEN pairs. -/
def SqlWhenList.length : SqlWhenList → Nat
  | .nil => 0
  | .cons _ _ rest => 1 + rest.length

/-- Number of direct children of an expression node, in the sense of the
grouping claim: operands, wrapped subexpressions, and when/then/else parts. -/
def childCount : SqlExpression → Nat
  | .numLit _ _ => 0
  | .booleanLit _ => 0
  | .stringLit _ => 0
  | .dateLit _ => 0
  | .bufferLit _ => 0
  | .nullLit _ => 0
  | .column _ _ _ _ => 0
  | .subquery _ _ => 0
  | .isNullOp _ => 1
  | .isNotNullOp _ => 1
  | .unaryOp _ _ _ _ => 1
  | .multiOp _ _ l _ => l.length
  | .multiFun _ _ l _ => l.length
  | .inListOp _ l => 1 + l.length
  | .inSubqueryOp _ _ => 2
  | .caseOp _ wl => 2 * wl.length
  | .caseElseOp _ wl _ => 2 * wl.length + 1

/-- The true grouping behaviour of every node kind: infix multi-operators
with two or more operands wrap when grouped, and so do unary operators,
IN-list and IN-subquery nodes regardless of arity; a one-operand infix
multi-operator delegates the grouped flag to its operand; a zero-operand
one and every remaining node kind render identically either way. -/
def groupingSpec : SqlExpression → Prop
  | .unaryOp ty pre x suf => wrapsWhenGrouped (.unaryOp ty pre x suf)
  | .inListOp ex l => wrapsWhenGrouped (.inListOp ex l)
  | .inSubqueryOp ex sub => wrapsWhenGrouped (.inSubqueryOp ex sub)
  | .multiOp ty op .nil override => ignoresGrouping (.multiOp ty op .nil override)
  | .multiOp ty op (.cons x .nil) override =>
    ∀ grouped, (SqlExpression.multiOp ty op (.cons x .nil) override).toSql grouped =
      x.toSql grouped
  | .multiOp ty op l override => wrapsWhenGrouped (.multiOp ty op l override)
  | e => ignoresGrouping e

/-- Extraction of a successful builder, for the concrete examples below. -/
def okOr (x : Except SqlError SqlSelect) (dflt : SqlSelect) : SqlSelect :=
  match x with
  | .ok s => s
  | .error _ => dflt

/-- An empty schema, for builders that use no table. -/
def emptyDb : SchemaDatabase := { tables := [] }

/-- The user table of the repository's test schema. -/
def userTable : SchemaTable :=
  { columns := [("id", { ty := .INTEGER, pk := true }),
                ("login", { ty := .TEXT }),
                ("apiKey", { ty := .TEXT, nullable := true }),
                ("isAdmin", { ty := .BOOLEAN })] }

/-- A schema holding the user table. -/
def userDb : SchemaDatabase := { tables := [("user", userTable)] }

/-- A builder with one projection and a nonzero offset but no limit. -/
def c1Builder : SqlSelect :=
  (okOr (SqlSelect.select { schema := emptyDb } "foo" (.native (.str "bar")))
    { schema := emptyDb }).setOffset 5

/-- The NOT of a true literal, built through the NOT combinator. -/
def c2NotExpr : SqlExpression :=
  match NOT (.native (.boolean true)) with
  | .ok e => e
  | .error _ => BOOL true

/-- A builder whose first from() call carries a join kind and predicate and
whose second from() call carries neither. -/
def c4Builder : SqlSelect :=
  let s0 : SqlSelect := { schema := userDb }
  let s1 := (s0.fromTable "u1" "user" (some "JOIN") (some (fun _ => BOOL true))).1
  let s2 := (s1.fromTable "u2" "user" none none).1
  okOr (s2.select "a" (.native (.num jsOne))) s2

/-- CASE with one WHEN/THEN pair and the native number 0 as the ELSE input. -/
def c5Case : Except SqlError (Option SqlExpression) :=
  CASE [(BOOL true, .native (.num jsOne))] (some (.native (.num jsZero)))

/-- The node c5Case actually produces: a CASE without ELSE. -/
def c5Node : SqlExpression := .caseOp .INTEGER (.cons (BOOL true) (INT jsOne) .nil)

/-- A row for the user table with fields out of schema order and apiKey
explicitly null. -/
def demoRow1 : Row :=
  [("login", some (.str "myname")), ("id", some (.num js123)),
   ("isAdmin", some (.boolean true)), ("apiKey", none)]

/-- A second row with the apiKey field missing entirely. -/
def demoRow2 : Row :=
  [("id", some (.num js321)), ("login", some (.str "yourname")),
   ("isAdmin", some (.boolean false))]

/-- A one-projection builder for the subquery claim. -/
def c10Builder : SqlSelect :=
  okOr (SqlSelect.select { schema := emptyDb } "id" (.native (.num js123)))
    { schema := emptyDb }

/-- A non-integer number, used to exercise the REAL branch of EXPR. -/
def jsHalf : JsNumber := { isInt := false, truthy := true, render := "2.5" }

/-- demoRow1 with its fields listed in a different order. -/
def demoRow1perm : Row :=
  [("id", some (.num js123)), ("apiKey", none),
   ("login", some (.str "myname")), ("isAdmin", some (.boolean true))]

/-- The two from() calls of c4Builder as data. -/
def c4Calls : List FromCall :=
  [{ talias := "u1", tableName := "user", joinType := some "JOIN",
     fJoin := some (fun _ => BOOL true) },
   { talias := "u2", tableName := "user", joinType := none, fJoin := none }]

example : (STR "foo").toSql false = "\x27foo\x27" := by decide

example : (INT js123).toSql true = "123" := by decide

example : EXPR (.native .object) = .error .invalidLiteral := rfl

example :
    ((STR "foo").eq (.native (.str "bar"))).map (fun e => e.toSql false) =
      .ok "\x27foo\x27=\x27bar\x27" := rfl

example :
    ((STR "foo").eq (.native (.str "bar"))).map (fun e => e.toSql true) =
      .ok "(\x27foo\x27=\x27bar\x27)" := rfl

example : (NOT (.native (.boolean false))).map (fun e => e.toSql false) =
    .ok "NOT (0)" := rfl

example :
    (AND [.expr (BOOL true)]).map (fun e => e.toSql true) = .ok "1" := rfl


/-- Joining after appending a last element inserts one separator before it. -/
theorem joinStrings_snoc (sep x a : String) (l : List String) :
    joinStrings sep (a :: (l ++ [x])) = joinStrings sep (a :: l) ++ sep ++ x := by
  induction l generalizing a with
  | nil => simp [joinStrings]
  | cons b bs ih => simp [joinStrings, ih, String.append_assoc]

/-- The previous lemma in the associativity shape produced by toSql. -/
theorem joinStrings_with_last (sep x a : String) (A B C : List String) :
    joinStrings sep (a :: (A ++ (B ++ (C ++ [x])))) =
      joinStrings sep (a :: (A ++ (B ++ (C ++ [])))) ++ sep ++ x := by
  have h := joinStrings_snoc sep x a (A ++ (B ++ C))
  simpa [List.append_assoc] using h

/-- The offset fragment is never the empty string. -/
theorem offsetPiece_ne (n : Nat) : " OFFSET " ++ toString n ≠ "" := by
  intro h
  have hlen := congrArg String.length h
  rw [String.length_append] at hlen
  have h8 : (" OFFSET ").length = 8 := rfl
  have h0 : ("" : String).length = 0 := rfl
  rw [h8, h0] at hlen
  omega

/-- Prepending the empty string is the identity. -/
theorem empty_string_append (s : String) : "" ++ s = s := rfl

/-- With the limit at its sentinel and a positive offset, the source pushes
the bare leading-space OFFSET fragment as one piece. -/
theorem limitOffsetPieces_unset (off : Nat) (h : 0 < off) :
    limitOffsetPieces maxSafeInteger off = [" OFFSET " ++ toString off] := by
  simp only [limitOffsetPieces, Nat.lt_irrefl, if_false, if_pos h]
  rw [if_pos (Or.inr (offsetPiece_ne off)), empty_string_append]

/-- With the limit at its sentinel and offset zero, no piece is pushed. -/
theorem limitOffsetPieces_zero :
    limitOffsetPieces maxSafeInteger 0 = [] := by
  simp [limitOffsetPieces]

/-- C1 (amended): when the offset is nonzero and the limit still has its
sentinel value, toSql does emit a clause: the whole rendering equals the
rendering with the offset cleared, followed by a newline and the bare
leading-space OFFSET fragment — the offset is not dropped. -/
theorem C1_amended (s : SqlSelect) (h1 : s.limit = maxSafeInteger)
    (h2 : 0 < s.offset) (h3 : s.selectSql ≠ []) :
    s.toSql = ({ s with offset := 0 } : SqlSelect).toSql ++ "\n" ++
      (" OFFSET " ++ toString s.offset) := by
  obtain ⟨db, sel, js, ws, obs, lim, off⟩ := s
  simp only at h1 h2 h3
  subst h1
  cases sel with
  | nil => exact absurd rfl h3
  | cons p ps =>
    simp only [SqlSelect.toSql, List.isEmpty_cons, Bool.false_eq_true, if_false,
      limitOffsetPieces_unset off h2, limitOffsetPieces_zero,
      List.singleton_append]
    rw [joinStrings_with_last]

/-- C1 (counterexample): a builder with one projection, offset 5 and no
limit renders a bare OFFSET clause, so the clause is produced and the
offset is not dropped from the SQL. -/
theorem C1_counterexample :
    c1Builder.limit = maxSafeInteger ∧
    c1Builder.toSql = "SELECT \x27bar\x27 AS foo\n OFFSET 5" ∧
    c1Builder.toSql ≠ "SELECT \x27bar\x27 AS foo" := by
  refine ⟨by decide, by decide, by decide⟩

/-- C1 (witness): the amended theorem applied to the concrete builder. -/
theorem C1_amended_witness :
    c1Builder.limit = maxSafeInteger ∧ 0 < c1Builder.offset ∧
    c1Builder.selectSql ≠ [] ∧
    c1Builder.toSql = ({ c1Builder with offset := 0 } : SqlSelect).toSql ++ "\n" ++
      (" OFFSET " ++ toString c1Builder.offset) :=
  ⟨rfl, by decide, by decide,
    C1_amended c1Builder rfl (by decide) (by decide)⟩

/-- C2 (amended): the grouping behaviour per node kind.  Infix
multi-operators with two or more operands wrap in one pair of parentheses
when rendered grouped, and so do unary operators (such as NOT), IN-list and
IN-subquery nodes regardless of child count; a one-operand infix
multi-operator hands the grouped flag to its operand; an empty one and all
remaining node kinds (literals, columns, IS NULL and IS NOT NULL,
function-style nodes, CASE, subqueries) render identically either way. -/
theorem C2_amended (e : SqlExpression) : groupingSpec e := by
  cases e with
  | unaryOp ty pre x suf =>
    simp [groupingSpec, wrapsWhenGrouped, SqlExpression.toSql]
  | inListOp ex l =>
    simp [groupingSpec, wrapsWhenGrouped, SqlExpression.toSql]
  | inSubqueryOp ex sub =>
    simp [groupingSpec, wrapsWhenGrouped, SqlExpression.toSql]
  | multiOp ty op l override =>
    cases l with
    | nil =>
      simp [groupingSpec, ignoresGrouping, SqlExpression.toSql,
        SqlExprList.length, SqlExprList.joinSql]
    | cons x rest =>
      cases rest with
      | nil =>
        simp only [groupingSpec]
        intro grouped
        simp [SqlExpression.toSql, SqlExprList.length, SqlExprList.joinSql]
      | cons y rest2 =>
        simp only [groupingSpec, wrapsWhenGrouped]
        have hlen : 1 < SqlExprList.length (.cons x (.cons y rest2)) := by
          simp [SqlExprList.length]
        simp [SqlExpression.toSql, hlen]
  | numLit ty render => simp [groupingSpec, ignoresGrouping, SqlExpression.toSql]
  | booleanLit v => simp [groupingSpec, ignoresGrouping, SqlExpression.toSql]
  | stringLit v => simp [groupingSpec, ignoresGrouping, SqlExpression.toSql]
  | dateLit v => simp [groupingSpec, ignoresGrouping, SqlExpression.toSql]
  | bufferLit v => simp [groupingSpec, ignoresGrouping, SqlExpression.toSql]
  | nullLit ty => simp [groupingSpec, ignoresGrouping, SqlExpression.toSql]
  | column a c ty n => simp [groupingSpec, ignoresGrouping, SqlExpression.toSql]
  | isNullOp ex => simp [groupingSpec, ignoresGrouping, SqlExpression.toSql]
  | isNotNullOp ex => simp [groupingSpec, ignoresGrouping, SqlExpression.toSql]
  | multiFun ty op l o => simp [groupingSpec, ignoresGrouping, SqlExpression.toSql]
  | caseOp ty wl => simp [groupingSpec, ignoresGrouping, SqlExpression.toSql]
  | caseElseOp ty wl els => simp [groupingSpec, ignoresGrouping, SqlExpression.toSql]
  | subquery ty sql => simp [groupingSpec, ignoresGrouping, SqlExpression.toSql]

/-- C2 (counterexample): NOT of a literal has one child, yet its grouped
rendering is parenthesised and differs from its ungrouped rendering, so the
one-child half of the claim fails on unary operators. -/
theorem C2_counterexample :
    childCount c2NotExpr = 1 ∧
    c2NotExpr.toSql true = "(NOT (1))" ∧
    c2NotExpr.toSql false = "NOT (1)" ∧
    c2NotExpr.toSql true ≠ c2NotExpr.toSql false := by
  refine ⟨by decide, by decide, by decide, by decide⟩

/-- C2 (witness): the amended characterisation applied to the NOT node. -/
theorem C2_amended_witness : groupingSpec c2NotExpr :=
  C2_amended c2NotExpr

/-- C3 (amended): the boolean combinators and the arithmetic methods check
only their receiver at construction time — a non-BOOLEAN receiver of
and/or/not and a non-numeric receiver of add/sub/mul/div fail with
TypeMismatch — while the right-hand operand is merely coerced and never
type-checked, so a wrongly typed right-hand expression is accepted. -/
theorem C3_amended (e rhs : SqlExpression) :
    (e.type ≠ .BOOLEAN →
      e.and (.expr rhs) = .error .typeMismatch ∧
      e.or (.expr rhs) = .error .typeMismatch ∧
      e.not = .error .typeMismatch) ∧
    (e.type = .BOOLEAN →
      exOk (e.and (.expr rhs)) = true ∧ exOk (e.or (.expr rhs)) = true) ∧
    ((e.type ≠ .REAL ∧ e.type ≠ .INTEGER) →
      e.add (.expr rhs) = .error .typeMismatch ∧
      e.sub (.expr rhs) = .error .typeMismatch ∧
      e.mul (.expr rhs) = .error .typeMismatch ∧
      e.div (.expr rhs) = .error .typeMismatch) ∧
    ((e.type = .REAL ∨ e.type = .INTEGER) →
      exOk (e.add (.expr rhs)) = true ∧ exOk (e.sub (.expr rhs)) = true ∧
      exOk (e.mul (.expr rhs)) = true ∧ exOk (e.div (.expr rhs)) = true) := by
  refine ⟨fun h => ?_, fun h => ?_, fun h => ?_, fun h => ?_⟩
  · refine ⟨?_, ?_, ?_⟩ <;>
      simp only [SqlExpression.and, SqlExpression.or, SqlExpression.not,
        SqlExpression.assertIsBoolean, if_neg h] <;> rfl
  · refine ⟨?_, ?_⟩ <;>
      simp only [SqlExpression.and, SqlExpression.or,
        SqlExpression.assertIsBoolean, if_pos h] <;> rfl
  · have hn : ¬ (e.type = .REAL ∨ e.type = .INTEGER) := by
      intro hc
      cases hc with
      | inl hc => exact h.1 hc
      | inr hc => exact h.2 hc
    refine ⟨?_, ?_, ?_, ?_⟩ <;>
      simp only [SqlExpression.add, SqlExpression.sub, SqlExpression.mul,
        SqlExpression.div, SqlExpression.assertIsNumeric, if_neg hn] <;> rfl
  · refine ⟨?_, ?_, ?_, ?_⟩ <;>
      simp only [SqlExpression.add, SqlExpression.sub, SqlExpression.mul,
        SqlExpression.div, SqlExpression.assertIsNumeric, if_pos h] <;> rfl

/-- C3 (counterexample): a BOOLEAN receiver combined by and with an INTEGER
right-hand side, and an INTEGER receiver divided by a TEXT right-hand side,
both construct successfully instead of failing with TypeMismatch. -/
theorem C3_counterexample :
    (INT jsOne).type = .INTEGER ∧
    exOk ((BOOL true).and (.expr (INT jsOne))) = true ∧
    ((BOOL true).and (.expr (INT jsOne))).map (fun e => e.toSql false) =
      .ok "1 AND 1" ∧
    (STR "foo").type = .TEXT ∧
    exOk ((INT jsOne).div (.expr (STR "foo"))) = true := by
  refine ⟨rfl, by decide, rfl, rfl, by decide⟩

/-- C3 (witness): the amended theorem applied at concrete receivers. -/
theorem C3_amended_witness :
    (INT jsOne).type ≠ .BOOLEAN ∧
    (INT jsOne).and (.expr (BOOL true)) = .error .typeMismatch ∧
    exOk ((BOOL true).and (.expr (INT jsOne))) = true ∧
    (STR "foo").type ≠ .REAL ∧ (STR "foo").type ≠ .INTEGER ∧
    (STR "foo").add (.expr (INT jsOne)) = .error .typeMismatch ∧
    exOk ((INT jsOne).div (.expr (STR "foo"))) = true := by
  refine ⟨by decide, ((C3_amended (INT jsOne) (BOOL true)).1 (by decide)).1,
    ((C3_amended (BOOL true) (INT jsOne)).2.1 rfl).1,
    by decide, by decide,
    ((C3_amended (STR "foo") (INT jsOne)).2.2.1 ⟨by decide, by decide⟩).1,
    ((C3_amended (INT jsOne) (STR "foo")).2.2.2 (Or.inr rfl)).2.2.2⟩

/-- C6: arithmetic promotion for numeric operands: add, sub and mul yield
REAL when either operand is REAL and INTEGER otherwise, and div always
yields REAL. -/
theorem C6_promotion (lhs rhs : SqlExpression)
    (hl : lhs.type = .REAL ∨ lhs.type = .INTEGER)
    (hr : rhs.type = .REAL ∨ rhs.type = .INTEGER) :
    (lhs.add (.expr rhs)).map SqlExpression.type =
      .ok (if lhs.type = .REAL ∨ rhs.type = .REAL then .REAL else .INTEGER) ∧
    (lhs.sub (.expr rhs)).map SqlExpression.type =
      .ok (if lhs.type = .REAL ∨ rhs.type = .REAL then .REAL else .INTEGER) ∧
    (lhs.mul (.expr rhs)).map SqlExpression.type =
      .ok (if lhs.type = .REAL ∨ rhs.type = .REAL then .REAL else .INTEGER) ∧
    (lhs.div (.expr rhs)).map SqlExpression.type = .ok .REAL := by
  refine ⟨?_, ?_, ?_, ?_⟩ <;>
    simp only [SqlExpression.add, SqlExpression.sub, SqlExpression.mul,
      SqlExpression.div, SqlExpression.assertIsNumeric, if_pos hl] <;> rfl

/-- C6 (witness): promotion evaluated at concrete INTEGER and REAL
literals. -/
theorem C6_promotion_witness :
    ((INT jsOne).add (.expr (INT js123))).map SqlExpression.type = .ok .INTEGER ∧
    ((INT jsOne).mul (.expr (FLOAT jsHalf))).map SqlExpression.type = .ok .REAL ∧
    ((INT jsOne).div (.expr (INT js123))).map SqlExpression.type = .ok .REAL := by
  refine ⟨?_, ?_, ?_⟩
  · exact ((C6_promotion (INT jsOne) (INT js123) (Or.inr rfl) (Or.inr rfl)).1).trans rfl
  · exact ((C6_promotion (INT jsOne) (FLOAT jsHalf) (Or.inr rfl) (Or.inl rfl)).2.2.1).trans rfl
  · exact (C6_promotion (INT jsOne) (INT js123) (Or.inr rfl) (Or.inr rfl)).2.2.2

/-- C5 (code evaluated at the failing input): a CASE whose ELSE input is
the native number 0 loses its ELSE branch — EXPR_UNDEF tests the argument
with JavaScript truthiness — so the node declares nullability sometimes and
renders without an ELSE clause, although every branch is never-null; with
the same 0 passed as an expression object the documented rule applies and
the node is never-null. -/
theorem C5_case_else_zero :
    c5Case = .ok (some c5Node) ∧
    c5Node.canBeNull = true ∧
    c5Node.toSql false = "CASE WHEN 1 THEN 1 END" ∧
    (CASE [(BOOL true, .native (.num jsOne))] (some (.expr (INT jsZero)))).map
      (Option.map SqlExpression.canBeNull) = .ok (some false) := by
  refine ⟨rfl, by decide, by decide, rfl⟩

/-- Some operand of a list can be null iff some member of the list can. -/
theorem anyCanBeNull_iff : (l : SqlExprList) →
    (SqlExprList.anyCanBeNull l = true ↔ ∃ x ∈ l.toList, x.canBeNull = true)
  | .nil => by simp [SqlExprList.anyCanBeNull, SqlExprList.toList]
  | .cons e rest => by
    have ih := anyCanBeNull_iff rest
    simp [SqlExprList.anyCanBeNull, SqlExprList.toList, ih, Bool.or_eq_true]

/-- C7: a multi-ary operator or function without an override is nullable
iff some operand is; the eq comparison inherits exactly the disjunction of
its two sides (so comparing with a typed NULL is nullable and comparing two
never-null operands is not); COALESCE over a non-empty list is nullable iff
every operand is. -/
theorem C7_nullability (ty : SqlType) (op : String) (l : SqlExprList)
    (e rhs : SqlExpression) (cl : List SqlExpression) (hcl : cl ≠ []) :
    ((SqlExpression.multiOp ty op l none).canBeNull = true ↔
      ∃ x ∈ l.toList, x.canBeNull = true) ∧
    ((SqlExpression.multiFun ty op l none).canBeNull = true ↔
      ∃ x ∈ l.toList, x.canBeNull = true) ∧
    ((e.eq (.expr rhs)).map SqlExpression.canBeNull =
      .ok (e.canBeNull || rhs.canBeNull)) ∧
    ((mkSqlCoalesce cl).map SqlExpression.canBeNull =
      some (cl.all SqlExpression.canBeNull)) ∧
    ((mkSqlCoalesce cl).map SqlExpression.canBeNull = some true ↔
      ∀ x ∈ cl, x.canBeNull = true) := by
  match cl, hcl with
  | c :: cs, _ =>
    refine ⟨?_, ?_, ?_, ?_, ?_⟩
    · simp only [SqlExpression.canBeNull, Option.getD]
      exact anyCanBeNull_iff l
    · simp only [SqlExpression.canBeNull, Option.getD]
      exact anyCanBeNull_iff l
    · have h1 : (e.eq (.expr rhs)).map SqlExpression.canBeNull =
          .ok (e.canBeNull || (rhs.canBeNull || false)) := rfl
      rw [h1, Bool.or_false]
    · rfl
    · rw [show (mkSqlCoalesce (c :: cs)).map SqlExpression.canBeNull =
          some ((c :: cs).all SqlExpression.canBeNull) from rfl]
      simp [List.all_eq_true]

/-- C7 (witness): a comparison against a typed NULL is nullable, a
comparison of two never-null literals is not, and COALESCE of two typed
NULLs is nullable. -/
theorem C7_nullability_witness :
    ((SqlExpression.nullLit .TEXT).eq (.expr (STR "foo"))).map
      SqlExpression.canBeNull = .ok true ∧
    ((STR "foo").eq (.expr (STR "bar"))).map SqlExpression.canBeNull = .ok false ∧
    (mkSqlCoalesce [SqlExpression.nullLit .BOOLEAN,
      SqlExpression.nullLit .BOOLEAN]).map SqlExpression.canBeNull = some true := by
  refine ⟨?_, ?_, ?_⟩
  · exact ((C7_nullability .BOOLEAN "=" .nil (SqlExpression.nullLit .TEXT) (STR "foo")
      [STR "x"] (by simp)).2.2.1).trans rfl
  · exact ((C7_nullability .BOOLEAN "=" .nil (STR "foo") (STR "bar")
      [STR "x"] (by simp)).2.2.1).trans rfl
  · exact ((C7_nullability .BOOLEAN "=" .nil (STR "a") (STR "b")
      [SqlExpression.nullLit .BOOLEAN, SqlExpression.nullLit .BOOLEAN]
      (by simp)).2.2.2.1).trans rfl

/-- C8: the EXPR factory coerces each supported native value kind
deterministically — strings to single-quoted TEXT literals with inner
quotes doubled, integer-valued numbers to INTEGER and other numbers to REAL
literals rendered as the number itself, booleans to BOOLEAN literals
rendered 1 or 0, instants to TIMESTAMP literals rendered as their ISO
string, buffers to BLOB literals rendered in hex — and fails with
InvalidLiteral on every unsupported input. -/
theorem C8_expr_factory (s : String) (n : JsNumber) (b : Bool)
    (d hx : String) (g : Bool) :
    (EXPR (.native (.str s)) = .ok (STR s) ∧ (STR s).type = .TEXT ∧
      (STR s).toSql g = "\x27" ++ sqlEscape s ++ "\x27") ∧
    (n.isInt = true → EXPR (.native (.num n)) = .ok (INT n) ∧
      (INT n).type = .INTEGER ∧ (INT n).toSql g = n.render) ∧
    (n.isInt = false → EXPR (.native (.num n)) = .ok (FLOAT n) ∧
      (FLOAT n).type = .REAL ∧ (FLOAT n).toSql g = n.render) ∧
    (EXPR (.native (.boolean b)) = .ok (BOOL b) ∧ (BOOL b).type = .BOOLEAN ∧
      (BOOL b).toSql g = if b then "1" else "0") ∧
    (EXPR (.native (.date d)) = .ok (DATE d) ∧ (DATE d).type = .TIMESTAMP ∧
      (DATE d).toSql g = d) ∧
    (EXPR (.native (.buffer hx)) = .ok (BLOBLit hx) ∧ (BLOBLit hx).type = .BLOB ∧
      (BLOBLit hx).toSql g = "x\x27" ++ hx ++ "\x27") ∧
    EXPR (.native .object) = .error .invalidLiteral := by
  refine ⟨⟨rfl, rfl, rfl⟩, fun h => ?_, fun h => ?_,
    ⟨rfl, rfl, rfl⟩, ⟨rfl, rfl, rfl⟩, ⟨rfl, rfl, rfl⟩, rfl⟩
  · rw [show EXPR (.native (.num n)) =
        .ok (if n.isInt then INT n else FLOAT n) from rfl, h]
    exact ⟨by simp, rfl, rfl⟩
  · rw [show EXPR (.native (.num n)) =
        .ok (if n.isInt then INT n else FLOAT n) from rfl, h]
    exact ⟨by simp, rfl, rfl⟩

/-- C8 (witness): the factory evaluated on a string containing a quote, an
integer-valued number and a non-integer number. -/
theorem C8_expr_factory_witness :
    (STR "a\x27b").toSql false = "\x27a\x27\x27b\x27" ∧
    EXPR (.native (.num jsOne)) = .ok (INT jsOne) ∧
    EXPR (.native (.num jsHalf)) = .ok (FLOAT jsHalf) := by
  refine ⟨((C8_expr_factory "a\x27b" jsOne true "" "" false).1.2.2).trans (by decide),
    ((C8_expr_factory "" jsOne true "" "" false).2.1 rfl).1,
    ((C8_expr_factory "" jsHalf true "" "" false).2.2.1 rfl).1⟩

/-- Lookup in a string-keyed map with distinct keys is invariant under
permutation of the entries. -/
theorem mapGet_perm {α : Type} : ∀ {l1 l2 : List (String × α)}, l1.Perm l2 →
    (l1.map Prod.fst).Nodup → ∀ k, mapGet l1 k = mapGet l2 k := by
  intro l1 l2 h
  induction h with
  | nil => intro _ _; rfl
  | cons x h ih =>
    intro hn k
    obtain ⟨a, b⟩ := x
    simp only [List.map_cons, List.nodup_cons] at hn
    simp only [mapGet]
    by_cases hak : a = k
    · simp [hak]
    · rw [if_neg hak, if_neg hak]
      exact ih hn.2 k
  | swap x y l =>
    intro hn k
    obtain ⟨a, b⟩ := x
    obtain ⟨c, d⟩ := y
    simp only [List.map_cons, List.nodup_cons, List.mem_cons] at hn
    have hca : c ≠ a := fun hh => hn.1 (Or.inl hh)
    simp only [mapGet]
    by_cases hck : c = k
    · rw [if_pos hck, if_neg (fun hak => hca (by rw [hck, hak])), if_pos hck]
    · by_cases hak : a = k
      · rw [if_neg hck, if_pos hak, if_pos hak]
      · rw [if_neg hck, if_neg hak, if_neg hak, if_neg hck]
  | trans h1 h2 ih1 ih2 =>
    intro hn k
    have hn2 := (List.Perm.nodup_iff (h1.map Prod.fst)).mp hn
    exact (ih1 hn k).trans (ih2 hn2 k)

/-- Reading a row field is invariant under permutation of the row's fields
when the field names are distinct. -/
theorem rowGet_perm {r r2 : Row} (hp : r.Perm r2)
    (hn : (r.map Prod.fst).Nodup) (n : String) : rowGet r n = rowGet r2 n := by
  unfold rowGet
  rw [mapGet_perm hp hn n]

/-- The formatter depends on a row only through its field lookups. -/
theorem getSqlExpressions_congr (cols : List (String × SchemaColumn)) {r r2 : Row}
    (h : ∀ n, rowGet r n = rowGet r2 n) :
    getSqlExpressions cols r = getSqlExpressions cols r2 := by
  unfold getSqlExpressions
  induction cols with
  | nil => rfl
  | cons c cs ih =>
    rw [List.mapM_cons, List.mapM_cons, h c.1, ih]

/-- A rendered value tuple depends on a row only through its lookups. -/
theorem renderRow_congr (cols : List (String × SchemaColumn)) {r r2 : Row}
    (h : ∀ n, rowGet r n = rowGet r2 n) :
    renderRow cols r = renderRow cols r2 := by
  unfold renderRow
  rw [getSqlExpressions_congr cols h]

/-- Rendering a list of rows is invariant under reordering every row's
fields, keys being distinct. -/
theorem mapM_renderRow_congr (cols : List (String × SchemaColumn))
    {rs rs2 : List Row}
    (h : List.Forall₂ (fun r r2 : Row => r.Perm r2 ∧ (r.map Prod.fst).Nodup) rs rs2) :
    rs.mapM (renderRow cols) = rs2.mapM (renderRow cols) := by
  induction h with
  | nil => rfl
  | cons hpair htail ih =>
    rw [List.mapM_cons, List.mapM_cons,
      renderRow_congr cols (fun n => rowGet_perm hpair.1 hpair.2 n), ih]

/-- The INSERT statement is unchanged when every row's fields are permuted,
keys being distinct. -/
theorem insertRows_rows_congr (db : SchemaDatabase) (t : String)
    {rows rows2 : List Row}
    (h : List.Forall₂ (fun r r2 : Row => r.Perm r2 ∧ (r.map Prod.fst).Nodup)
      rows rows2) :
    getInsertRowsSql db t (some rows) = getInsertRowsSql db t (some rows2) := by
  cases h with
  | nil => rfl
  | cons hpair htail =>
    unfold getInsertRowsSql
    cases htab : mapGet db.tables t with
    | none => rfl
    | some table =>
      have hm := mapM_renderRow_congr table.columns (List.Forall₂.cons hpair htail)
      simp only [hm]

/-- C9: getInsertRowsSql yields the empty string for missing, null or empty
rows; its output does not depend on the field order inside the caller's
rows (with distinct field names); a missing or explicitly null field goes
through the typed literal factory and renders NULL; and on the repository's
user schema two rows given out of schema order render with the column list
and value tuples in schema declaration order. -/
theorem C9_insert_rows (db : SchemaDatabase) (t : String) (rows rows2 : List Row)
    (hrows : List.Forall₂ (fun r r2 : Row => r.Perm r2 ∧ (r.map Prod.fst).Nodup)
      rows rows2) :
    getInsertRowsSql db t none = some "" ∧
    getInsertRowsSql db t (some []) = some "" ∧
    getInsertRowsSql db t (some rows) = getInsertRowsSql db t (some rows2) ∧
    (∀ (c : SchemaColumn) (g : Bool), LITERAL c.ty none = some (.nullLit c.ty) ∧
      (SqlExpression.nullLit c.ty).toSql g = "NULL") ∧
    getInsertRowsSql userDb "user" (some [demoRow1, demoRow2]) =
      some ("INSERT INTO user (id,login,apiKey,isAdmin) VALUES\n" ++
        "(123,\x27myname\x27,NULL,1),\n(321,\x27yourname\x27,NULL,0)") := by
  refine ⟨rfl, rfl, insertRows_rows_congr db t hrows,
    fun c g => ⟨rfl, rfl⟩, by decide⟩

/-- C9 (witness): the same row with fields reordered renders identically. -/
theorem C9_insert_rows_witness :
    getInsertRowsSql userDb "user" (some [demoRow1perm]) =
      getInsertRowsSql userDb "user" (some [demoRow1]) ∧
    getInsertRowsSql userDb "user" none = some "" := by
  have h := C9_insert_rows userDb "user" [demoRow1perm] [demoRow1]
    (List.Forall₂.cons ⟨by decide, by decide⟩ List.Forall₂.nil)
  exact ⟨h.2.2.1, h.1⟩

/-- A sequence of from() calls only appends its join entries, one per call,
each built from that call's own arguments. -/
theorem applyFroms_spec : ∀ (calls : List FromCall) (s : SqlSelect),
    applyFroms s calls =
      { s with joins := s.joins ++ calls.map (callEntry s.schema) } := by
  intro calls
  induction calls with
  | nil => intro s; simp [applyFroms]
  | cons c cs ih =>
    intro s
    rw [applyFroms, ih]
    rw [show (s.fromTable c.talias c.tableName c.joinType c.fJoin).1 =
        { s with joins := s.joins ++ [callEntry s.schema c] } from rfl]
    simp [List.append_assoc]

/-- One join entry renders qualified iff its call supplied both a truthy
join kind and a predicate builder. -/
theorem renderJoin_callEntry (db : SchemaDatabase) (c : FromCall) :
    renderJoin (callEntry db c) =
      match c.joinType, c.fJoin with
      | some jt, some f =>
        if jt ≠ "" then
          jt ++ " " ++ (c.tableName ++ " " ++ c.talias) ++ " ON " ++
            (f (mkFromTable db c.talias c.tableName)).toSql true
        else c.tableName ++ " " ++ c.talias
      | _, _ => c.tableName ++ " " ++ c.talias := by
  obtain ⟨ta, tn, jt, fj⟩ := c
  cases jt with
  | none => cases fj <;> rfl
  | some jtv =>
    cases fj with
    | none => rfl
    | some f =>
      by_cases h : jtv = ""
      · simp [renderJoin, callEntry, h]
      · simp [renderJoin, callEntry, h]

/-- Joining a two-piece clause list with no further pieces. -/
theorem joinStrings_two (a b : String) :
    joinStrings "\n" ([a] ++ ([b] ++ limitOffsetPieces maxSafeInteger 0)) =
      a ++ "\n" ++ b := rfl

/-- Rendering the entries recorded for a call list, entry by entry. -/
theorem mapRenderJoin_eq (db : SchemaDatabase) : ∀ (calls : List FromCall),
    List.map renderJoin (List.map (callEntry db) calls) =
      List.map (fun c => match c.joinType, c.fJoin with
        | some jt, some f =>
          if jt ≠ "" then
            jt ++ " " ++ (c.tableName ++ " " ++ c.talias) ++ " ON " ++
              (f (mkFromTable db c.talias c.tableName)).toSql true
          else c.tableName ++ " " ++ c.talias
        | _, _ => c.tableName ++ " " ++ c.talias) calls := by
  intro calls
  induction calls with
  | nil => rfl
  | cons c cs ih => simp only [List.map_cons, ih, renderJoin_callEntry]

/-- C4 (amended): for any sequence of from() calls on a builder with at
least one projection, the FROM clause renders the entries in call order,
each entry qualified as joinKind-table-alias-ON-predicate exactly when that
call supplied both a join kind and a predicate builder, and unqualified as
table-alias otherwise — independently of the entry's position.  Nothing
forces the first call to omit the join kind or later calls to supply one. -/
theorem C4_amended (db : SchemaDatabase) (ps : List (String × SqlExpression))
    (hps : ps ≠ []) (calls : List FromCall) (hcalls : calls ≠ []) :
    (applyFroms { schema := db, selectSql := ps } calls).toSql =
      ("SELECT " ++ joinStrings ", "
          (ps.map (fun p => p.2.toSql false ++ " AS " ++ p.1))) ++
      "\n" ++ ("FROM " ++ joinStrings " " (calls.map (fun c =>
        match c.joinType, c.fJoin with
        | some jt, some f =>
          if jt ≠ "" then
            jt ++ " " ++ (c.tableName ++ " " ++ c.talias) ++ " ON " ++
              (f (mkFromTable db c.talias c.tableName)).toSql true
          else c.tableName ++ " " ++ c.talias
        | _, _ => c.tableName ++ " " ++ c.talias))) := by
  rw [applyFroms_spec]
  cases ps with
  | nil => exact absurd rfl hps
  | cons p ps' =>
  cases calls with
  | nil => exact absurd rfl hcalls
  | cons c cs =>
  simp only [SqlSelect.toSql, List.nil_append, List.map_cons, List.isEmpty_cons,
    Bool.false_eq_true, if_false, List.isEmpty_nil, if_true]
  rw [joinStrings_two]
  rw [renderJoin_callEntry db c, mapRenderJoin_eq db cs]

/-- C4 (counterexample): a join list whose first from() call carries a join
kind and predicate and whose second carries neither: the first entry is
recorded with its join kind and rendered qualified with ON, and the second
is rendered as a bare table reference, against both halves of the claim. -/
theorem C4_counterexample :
    c4Builder.toSql = "SELECT 1 AS a\nFROM JOIN user u1 ON 1 user u2" ∧
    c4Builder.joins.map JoinedTable.joinType = [some "JOIN", none] := by
  refine ⟨by decide, by decide⟩

/-- C4 (witness): the amended theorem applied to the two concrete calls of
c4Builder. -/
theorem C4_amended_witness :
    (applyFroms { schema := userDb, selectSql := [("a", INT jsOne)] } c4Calls).toSql =
      "SELECT 1 AS a\nFROM JOIN user u1 ON 1 user u2" := by
  have h := C4_amended userDb [("a", INT jsOne)] (by simp) c4Calls
    (by simp [c4Calls])
  exact h.trans (by decide)

/-- C10: asSubquery on an alias bound in the SELECT list returns the
rendered SELECT wrapped in parentheses as a scalar expression carrying the
projection's declared type and nullability sometimes, and fails with
MissingProjection on an unbound alias. -/
theorem C10_asSubquery (s : SqlSelect) (alias' : String) (e : SqlExpression)
    (g : Bool) :
    (mapGet s.selectSql alias' = some e →
      s.asSubquery alias' = .ok (.subquery e.type ("(" ++ s.toSql ++ ")")) ∧
      (SqlExpression.subquery e.type ("(" ++ s.toSql ++ ")")).toSql g =
        "(" ++ s.toSql ++ ")" ∧
      (SqlExpression.subquery e.type ("(" ++ s.toSql ++ ")")).type = e.type ∧
      (SqlExpression.subquery e.type ("(" ++ s.toSql ++ ")")).canBeNull = true) ∧
    (mapGet s.selectSql alias' = none →
      s.asSubquery alias' = .error .missingProjection) := by
  constructor
  · intro h
    unfold SqlSelect.asSubquery
    rw [h]
    exact ⟨rfl, rfl, rfl, rfl⟩
  · intro h
    unfold SqlSelect.asSubquery
    rw [h]

/-- C10 (witness): the subquery adapter on the concrete one-projection
builder, at a bound and at an unbound alias. -/
theorem C10_asSubquery_witness :
    c10Builder.asSubquery "id" = .ok (.subquery .INTEGER "(SELECT 123 AS id)") ∧
    c10Builder.asSubquery "nope" = .error .missingProjection := by
  refine ⟨((C10_asSubquery c10Builder "id" (INT js123) false).1 rfl).1,
    (C10_asSubquery c10Builder "nope" (BOOL true) false).2 rfl⟩
